import Mathlib

/-!
Shallow embedding of the `exclusiveprocess` Python package
(file `exclusiveprocess/__init__.py`): a system-wide mutual-exclusion
primitive based on a pidfile.

Modelling choices:
* The filesystem is an association list from paths to file contents
  (`FS`).  `FS.write` models the combined seek-to-0 / write / truncate
  sequence of `_acquire` (the net effect is that the file content is
  fully replaced), and creation of a fresh file.  `FS.delete` models
  `os.unlink`.
* The outcome of the probe `os.kill(pid, 0)` is an oracle
  `kill : Nat -> KillOutcome` supplied as a parameter: `ok` means the
  signal was delivered (process exists and we may signal it), `esrch`,
  `eperm` and `einval` are the corresponding `OSError` errno values.
* `Lock._acquire` becomes the pure function `acquire`.  The race in
  which the lockfile exists at the exclusive-`open(..., "x")` step but
  has been deleted by a concurrent release before the `open(..., "r+")`
  step is modelled by the boolean parameter `vanish`; when it is set the
  reopen raises `FileNotFoundError` (an `OSError`), which the code wraps
  into `CannotAcquireLock` with the distinct indeterminate-error message.
* Python exceptions escaping `_acquire`, and `sys.exit(1)`, become
  constructors of `Outcome`.  `acquire` takes one whole call
  atomically, which is adequate for the sequential claims; it does NOT
  model concurrent interleavings, because os.lockf is taken only after
  the corresponding open succeeds, so whole calls are not serialised.
  The fine-grained machine `raceStep` / `runRace` models the individual
  system calls of two concurrent acquirers and exhibits the
  interleaving the atomic view hides.
* `str(os.getpid())` is modelled by `natToDecimal`, plain decimal text.
* `str.strip()` and `int()` are modelled with the exact whitespace set
  and decimal-digit set of CPython 3.11 (Unicode 14.0), including
  underscore digit separators and non-ASCII decimal digits.
-/

namespace ExclusiveProcess

/-- Filesystem state: list of (path, content) pairs, first match wins. -/
def FS : Type := List (String × String)

def FS.read (fs : FS) (p : String) : Option String :=
  (List.find? (fun e => e.1 == p) fs).map (fun e => e.2)

/-- Create a file, or fully replace the content of an existing file
(the net effect of seek(0) + write + truncate in the source). -/
def FS.write (fs : FS) (p c : String) : FS :=
  (p, c) :: List.filter (fun e => !(e.1 == p)) fs

/-- Model of os.unlink when the file exists. -/
def FS.delete (fs : FS) (p : String) : FS :=
  List.filter (fun e => !(e.1 == p)) fs

/-- The characters Python str.isspace reports true for, which is the
set str.strip() removes: 0x09-0x0D, 0x1C-0x1F, space, 0x85 (NEL),
0xA0 (NBSP), 0x1680, 0x2000-0x200A, 0x2028, 0x2029, 0x202F, 0x205F
and 0x3000 (CPython 3.11, Unicode 14.0). -/
def isPySpace (c : Char) : Bool :=
  (9 ≤ c.toNat && c.toNat ≤ 13) || (28 ≤ c.toNat && c.toNat ≤ 31) ||
  c.toNat == 32 || c.toNat == 133 || c.toNat == 160 || c.toNat == 5760 ||
  (8192 ≤ c.toNat && c.toNat ≤ 8202) || c.toNat == 8232 ||
  c.toNat == 8233 || c.toNat == 8239 || c.toNat == 8287 ||
  c.toNat == 12288

/-- Python str.strip(): remove leading and trailing whitespace. -/
def pyStrip (s : String) : String :=
  String.mk (((s.data.dropWhile isPySpace).reverse.dropWhile isPySpace).reverse)

/-- Code points of the zero digit of every run of decimal digits in the
Unicode character database (category Nd, Unicode 14.0 as shipped with
CPython 3.11); each run is ten consecutive code points with values
0 to 9.  These are exactly the digits int() accepts. -/
def digitZeros : List Nat :=
  [48, 1632, 1776, 1984, 2406, 2534, 2662, 2790, 2918, 3046, 3174, 3302,
   3430, 3558, 3664, 3792, 3872, 4160, 4240, 6112, 6160, 6470, 6608, 6784,
   6800, 6992, 7088, 7232, 7248, 42528, 43216, 43264, 43472, 43504, 43600,
   44016, 65296, 66720, 68912, 69734, 69872, 69942, 70096, 70384, 70736,
   70864, 71248, 71360, 71472, 71904, 72016, 72784, 73040, 73120, 92768,
   92864, 93008, 120782, 120792, 120802, 120812, 120822, 123200, 123632,
   125264, 130032]

/-- Decimal value of a character per the Unicode decimal-digit
property Python int() uses; none when the character is not a decimal
digit. -/
def digitValue (c : Char) : Option Nat :=
  (digitZeros.find? (fun z => z ≤ c.toNat && c.toNat ≤ z + 9)).map
    (fun z => c.toNat - z)

/-- Continuation of a digit run, CPython digitpart grammar
digit ([underscore] digit)*: each further digit may be preceded by a
single underscore separator, which must sit between two digits. -/
def parseDigitsTail (acc : Nat) : List Char → Option Nat
  | [] => some acc
  | c :: rest =>
    if c == '_' then
      match rest with
      | [] => none
      | d :: rest2 =>
        match digitValue d with
        | some v => parseDigitsTail (acc * 10 + v) rest2
        | none => none
    else
      match digitValue c with
      | some v => parseDigitsTail (acc * 10 + v) rest
      | none => none

/-- A digit run must begin with a digit. -/
def parseDigits : List Char → Option Nat
  | [] => none
  | c :: rest =>
    match digitValue c with
    | some v => parseDigitsTail v rest
    | none => none

/-- Python int(s) on an already-stripped string: optional single sign,
then decimal digits (any Unicode decimal digit) with optional single
underscore separators between digits; anything else raises ValueError
(here: none). -/
def pyParseInt (s : String) : Option Int :=
  match s.data with
  | [] => none
  | c :: rest =>
    if c == '-' then (parseDigits rest).map (fun n => -(n : Int))
    else if c == '+' then (parseDigits rest).map (fun n => (n : Int))
    else (parseDigits (c :: rest)).map (fun n => (n : Int))

/-- Decimal digits of a natural number, most significant first. -/
def natDigits (n : Nat) : List Char :=
  if h : n < 10 then [Char.ofNat (48 + n)]
  else natDigits (n / 10) ++ [Char.ofNat (48 + n % 10)]
  decreasing_by exact Nat.div_lt_self (by omega) (by omega)

/-- Model of Python str(n) for a nonnegative n: plain decimal text. -/
def natToDecimal (n : Nat) : String := String.mk (natDigits n)

/-- Uppercase hexadecimal digit for n < 16. -/
def hexDigit (n : Nat) : Char :=
  if n < 10 then Char.ofNat (48 + n) else Char.ofNat (55 + n)

/-- UTF-8 encoding of a Unicode code point, as byte values. -/
def utf8Bytes (n : Nat) : List Nat :=
  if n < 128 then [n]
  else if n < 2048 then [192 + n / 64, 128 + n % 64]
  else if n < 65536 then [224 + n / 4096, 128 + n / 64 % 64, 128 + n % 64]
  else [240 + n / 262144, 128 + n / 4096 % 64, 128 + n / 64 % 64, 128 + n % 64]

/-- Bytes urllib.parse.quote_plus leaves unescaped: ASCII alphanumerics
and underscore, dot, hyphen, tilde. -/
def isSafeByte (b : Nat) : Bool :=
  (65 ≤ b && b ≤ 90) || (97 ≤ b && b ≤ 122) || (48 ≤ b && b ≤ 57) ||
  b == 95 || b == 46 || b == 45 || b == 126

/-- How quote_plus renders one byte of the UTF-8 encoding: space becomes
a plus sign, safe bytes stand for themselves, everything else becomes
percent and two uppercase hex digits. -/
def quoteByte (b : Nat) : List Char :=
  if b == 32 then ['+']
  else if isSafeByte b then [Char.ofNat b]
  else ['%', hexDigit (b / 16), hexDigit (b % 16)]

/-- Model of urllib.parse.quote_plus. -/
def quote_plus (s : String) : String :=
  String.mk ((s.data.flatMap (fun c => utf8Bytes c.toNat)).flatMap quoteByte)

/-- Model of posixpath.join for two components. -/
def pathJoin (a b : String) : String :=
  if b.startsWith "/" then b
  else if a == "" then b
  else if a.endsWith "/" then a ++ b
  else a ++ "/" ++ b

/-- Environment facts get_lock_file depends on: whether /var/lock is a
directory, and the system temporary directory. -/
structure Config where
  varLockIsDir : Bool
  tmpdir : String

/-- Model of get_lock_file: sanitize the name with quote_plus, prefix
the fixed namespace token, and place the file in /var/lock (extension
.lock) when it is a directory, else in the temporary directory
(extension .pid). -/
def get_lock_file (cfg : Config) (name : String) : String :=
  let n := "py_exclusivelock_" ++ quote_plus name
  if cfg.varLockIsDir then "/var/lock/" ++ (n ++ ".lock")
  else pathJoin cfg.tmpdir (n ++ ".pid")

/-- Outcome of the os.kill(pid, 0) probe. -/
inductive KillOutcome where
  | ok
  | esrch
  | eperm
  | einval
deriving DecidableEq

/-- Python exceptions raised by is_pid_valid. -/
inductive PyErr where
  | valueError
  | osError
deriving DecidableEq

/-- Model of is_pid_valid: a nonpositive pid raises ValueError; the
probe outcome decides the rest (delivered or EPERM means the process
exists, ESRCH means it does not, EINVAL is re-raised).  The Python
isinstance(pid, int) guard is subsumed by the Int type of the model. -/
def is_pid_valid (pid : Int) (kill : Nat → KillOutcome) : Except PyErr Bool :=
  if pid ≤ 0 then .error .valueError
  else
    match kill pid.toNat with
    | .ok => .ok true
    | .esrch => .ok false
    | .eperm => .ok true
    | .einval => .error .osError

/-- The CannotAcquireLock message for a lock held by a live process
(source format string: Another [name] process is already running
(pid [pid]).), right-associated so the leading literal is exposed. -/
def heldMsg (name : String) (pid : Int) : String :=
  "Another \x27" ++ (name ++ ("\x27 process is already running (pid " ++
    (toString pid ++ ").")))

/-- The CannotAcquireLock message for an OSError while reopening the
lockfile, right-associated so the leading literal is exposed. -/
def indetMsg (lockfile : String) (errText : String) : String :=
  "There was an error opening " ++ (lockfile ++
    (" after an open in \x27x\x27 mode failed, which might indicate the lock was held just moments ago: " ++
      (errText ++ ".")))

/-- str(e) of the FileNotFoundError raised when the lockfile vanished
between the exclusive-create attempt and the reopen. -/
def fnfText (p : String) : String :=
  "[Errno 2] No such file or directory: \x27" ++ (p ++ "\x27")

/-- str(e) of the OSError re-raised by is_pid_valid on EINVAL. -/
def einvalText : String := "[Errno 22] Invalid argument"

/-- How a call to Lock._acquire terminates. -/
inductive Outcome where
  | ok
  | cannotAcquire (msg : String)
  | exited (code : Nat) (stderrLine : String)
  | valueErr
deriving DecidableEq

/-- Model of Lock._acquire.  `vanish` is true when a concurrent release
deletes the lockfile between the failed exclusive create and the reopen
in update mode (the reopen then raises FileNotFoundError, wrapped by the
except OSError handler).  Returns the outcome and the new filesystem. -/
def acquire (cfg : Config) (name : String) (myPid : Nat)
    (kill : Nat → KillOutcome) (die : Bool) (vanish : Bool)
    (fs : FS) : Outcome × FS :=
  let lockfile := get_lock_file cfg name
  match FS.read fs lockfile with
  | none =>
    (.ok, FS.write fs lockfile (natToDecimal myPid))
  | some content =>
    if vanish then
      (.cannotAcquire (indetMsg lockfile (fnfText lockfile)),
        FS.delete fs lockfile)
    else
      match pyParseInt (pyStrip content) with
      | none =>
        (.ok, FS.write fs lockfile (natToDecimal myPid))
      | some existing_pid =>
        match is_pid_valid existing_pid kill with
        | .error .valueError => (.valueErr, fs)
        | .error .osError =>
          (.cannotAcquire (indetMsg lockfile einvalText), fs)
        | .ok true =>
          if die then (.exited 1 (heldMsg name existing_pid), fs)
          else (.cannotAcquire (heldMsg name existing_pid), fs)
        | .ok false =>
          (.ok, FS.write fs lockfile (natToDecimal myPid))

/-- Model of os.unlink: fails when the file does not exist. -/
def unlink (fs : FS) (p : String) : Except Unit FS :=
  match FS.read fs p with
  | some _ => .ok (FS.delete fs p)
  | none => .error ()

/-- Model of Lock._release: delete the lockfile, swallowing every
failure (the bare except in the source), including the AttributeError
when the handle was never acquired (lockfile = none). -/
def release (fs : FS) (lockfile : Option String) : FS :=
  match lockfile with
  | none => fs
  | some p =>
    match unlink fs p with
    | .ok fs₂ => fs₂
    | .error _ => fs

/-! Fine-grained interleaving model of Lock._acquire for the
concurrency claim.  The atomic `acquire` above hides that os.lockf is
called only after the corresponding open has succeeded (lines 89 vs 93
and 111 vs 115 of the source), so steps of two concurrent acquirers
can interleave between open and lockf.  Each `RacePC` value is a point
between system calls of `_acquire`. -/

/-- How one interleaved run of _acquire ends for one process. -/
inductive RaceResult where
  | ok
  | held (pid : Int)
  | indet
  | verr
deriving DecidableEq

/-- Program counter of one process inside _acquire: about to call
open(x); holding the fresh x-mode handle, about to call lockf; holding
the advisory lock on the x path, about to write the pid and leave the
with block; after FileExistsError, about to call open(r+); holding the
r+ handle, about to call lockf; holding the advisory lock, about to
read, parse, check and possibly overwrite; finished. -/
inductive RacePC where
  | start
  | xLock
  | xWrite
  | rOpen
  | rLock
  | rCrit
  | finished (r : RaceResult)
deriving DecidableEq

/-- One concurrent acquirer: its pid and its program counter. -/
structure RaceProc where
  pid : Nat
  pc : RacePC
deriving DecidableEq

/-- f.write(my_pid) on the x-path handle: position 0, no truncate, so
the pid overwrites the front of the current content and any longer
tail survives. -/
def overwriteAt0 (w c : String) : String :=
  String.mk (w.data ++ c.data.drop w.data.length)

/-- One atomic step of one process: takes the shared file (none when
absent) and whether the advisory lock is currently held, returns the
new shared state and process, or none when the process is blocked in
lockf or already finished.  The read/parse/check/overwrite block runs
while holding the advisory lock, so it is one atomic step; the
file-gone-while-locked case is left without a transition (an unlinked
but open file is outside this model and is not needed here). -/
def raceStep (kill : Nat → KillOutcome) (file : Option String)
    (lockBusy : Bool) (p : RaceProc) :
    Option (Option String × Bool × RaceProc) :=
  match p.pc with
  | .start =>
    match file with
    | none => some (some "", lockBusy, { p with pc := .xLock })
    | some _ => some (file, lockBusy, { p with pc := .rOpen })
  | .xLock =>
    if lockBusy then none
    else some (file, true, { p with pc := .xWrite })
  | .xWrite =>
    some (some (overwriteAt0 (natToDecimal p.pid)
            (match file with | some c => c | none => "")),
          false, { p with pc := .finished .ok })
  | .rOpen =>
    match file with
    | none => some (file, lockBusy, { p with pc := .finished .indet })
    | some _ => some (file, lockBusy, { p with pc := .rLock })
  | .rLock =>
    if lockBusy then none
    else some (file, true, { p with pc := .rCrit })
  | .rCrit =>
    match file with
    | none => none
    | some c =>
      match pyParseInt (pyStrip c) with
      | none =>
        some (some (natToDecimal p.pid), false, { p with pc := .finished .ok })
      | some q =>
        match is_pid_valid q kill with
        | .ok true => some (file, false, { p with pc := .finished (.held q) })
        | .ok false =>
          some (some (natToDecimal p.pid), false, { p with pc := .finished .ok })
        | .error .valueError => some (file, false, { p with pc := .finished .verr })
        | .error .osError => some (file, false, { p with pc := .finished .indet })
  | .finished _ => none

/-- Shared state of a two-process race: the lockfile, the advisory
lock, and both processes. -/
structure RaceState where
  file : Option String
  lockBusy : Bool
  procA : RaceProc
  procB : RaceProc
deriving DecidableEq

/-- Whose turn it is in a schedule. -/
inductive Turn where
  | A
  | B
deriving DecidableEq

/-- Run a schedule: at each turn the named process takes one step; a
blocked or finished process simply loses the turn. -/
def runRace (kill : Nat → KillOutcome) : List Turn → RaceState → RaceState
  | [], s => s
  | t :: rest, s =>
    match t with
    | .A =>
      match raceStep kill s.file s.lockBusy s.procA with
      | some (f, l, p) => runRace kill rest { s with file := f, lockBusy := l, procA := p }
      | none => runRace kill rest s
    | .B =>
      match raceStep kill s.file s.lockBusy s.procB with
      | some (f, l, p) => runRace kill rest { s with file := f, lockBusy := l, procB := p }
      | none => runRace kill rest s

/-- Initial race state: no lockfile, lock free, processes 5 and 7 both
about to call open(x). -/
def raceInit : RaceState :=
  ⟨none, false, ⟨5, .start⟩, ⟨7, .start⟩⟩

/-! Helper lemmas about the filesystem model. -/

theorem FS.read_write_self (fs : FS) (p c : String) :
    FS.read (FS.write fs p c) p = some c := by
  simp [FS.read, FS.write, List.find?_cons]

theorem FS.find?_filter_keep (l : List (String × String))
    (pr keep : String × String → Bool)
    (h : ∀ a, pr a = true → keep a = true) :
    List.find? pr (List.filter keep l) = List.find? pr l := by
  induction l with
  | nil => rfl
  | cons a t ih =>
    by_cases hk : keep a = true
    · rw [List.filter_cons_of_pos hk]
      by_cases hp : pr a = true
      · simp [List.find?_cons, hp]
      · have hp2 : pr a = false := by
          cases hpa : pr a
          · rfl
          · exact absurd hpa hp
        simp [List.find?_cons, hp2, ih]
    · have hp2 : pr a = false := by
        cases hpa : pr a
        · rfl
        · exact absurd (h a hpa) hk
      rw [List.filter_cons_of_neg hk]
      simp [List.find?_cons, hp2, ih]

theorem FS.keep_of_ne (p q : String) (h : q ≠ p) :
    ∀ a : String × String, (a.1 == q) = true → (!(a.1 == p)) = true := by
  intro a ha
  rw [beq_iff_eq] at ha
  rw [ha, show (q == p) = false from beq_eq_false_iff_ne.mpr h]
  rfl

theorem FS.read_write_ne (fs : FS) (p q c : String) (h : q ≠ p) :
    FS.read (FS.write fs p c) q = FS.read fs q := by
  unfold FS.read FS.write
  have h1 : (p == q) = false := beq_eq_false_iff_ne.mpr (Ne.symm h)
  simp only [List.find?_cons, h1]
  rw [FS.find?_filter_keep fs _ _ (FS.keep_of_ne p q h)]

theorem FS.read_delete_self (fs : FS) (p : String) :
    FS.read (FS.delete fs p) p = none := by
  unfold FS.read FS.delete
  have hnone :
      List.find? (fun e => e.1 == p)
        (List.filter (fun e => !(e.1 == p)) fs) = none := by
    rw [List.find?_eq_none]
    intro x hx hc
    rw [List.mem_filter] at hx
    have h2 := hx.2
    simp only at h2 hc
    rw [hc] at h2
    exact absurd h2 (by decide)
  rw [hnone]
  rfl

theorem FS.read_delete_ne (fs : FS) (p q : String) (h : q ≠ p) :
    FS.read (FS.delete fs p) q = FS.read fs q := by
  unfold FS.read FS.delete
  rw [FS.find?_filter_keep fs _ _ (FS.keep_of_ne p q h)]

/-! Helper lemmas about the error messages. -/

theorem string_data_append (s t : String) : (s ++ t).data = s.data ++ t.data := by
  cases s
  cases t
  rfl

theorem heldMsg_head (n : String) (p : Int) :
    (heldMsg n p).data.head? = some ('A') := by
  unfold heldMsg
  rw [string_data_append, List.head?_append]
  rfl

theorem indetMsg_head (lf e : String) :
    (indetMsg lf e).data.head? = some ('T') := by
  unfold indetMsg
  rw [string_data_append, List.head?_append]
  rfl

/-- The indeterminate-acquisition message is never equal to a
lock-held message: the two conditions are not conflated. -/
theorem indetMsg_ne_heldMsg (lf e n : String) (p : Int) :
    indetMsg lf e ≠ heldMsg n p := by
  intro h
  have h2 := congrArg (fun s => s.data.head?) h
  simp only at h2
  rw [indetMsg_head, heldMsg_head] at h2
  exact absurd h2 (by decide)

/-! Branch lemmas for acquire. -/

theorem acquire_create (cfg : Config) (name : String) (myPid : Nat)
    (kill : Nat → KillOutcome) (die vanish : Bool) (fs : FS)
    (h : FS.read fs (get_lock_file cfg name) = none) :
    acquire cfg name myPid kill die vanish fs
      = (.ok, FS.write fs (get_lock_file cfg name) (natToDecimal myPid)) := by
  unfold acquire
  simp only [h]

theorem acquire_vanish (cfg : Config) (name : String) (myPid : Nat)
    (kill : Nat → KillOutcome) (die : Bool) (fs : FS) (c : String)
    (h : FS.read fs (get_lock_file cfg name) = some c) :
    acquire cfg name myPid kill die true fs
      = (.cannotAcquire (indetMsg (get_lock_file cfg name)
            (fnfText (get_lock_file cfg name))),
         FS.delete fs (get_lock_file cfg name)) := by
  unfold acquire
  simp only [h, if_pos]

theorem acquire_parse_none (cfg : Config) (name : String) (myPid : Nat)
    (kill : Nat → KillOutcome) (die : Bool) (fs : FS) (c : String)
    (h : FS.read fs (get_lock_file cfg name) = some c)
    (hp : pyParseInt (pyStrip c) = none) :
    acquire cfg name myPid kill die false fs
      = (.ok, FS.write fs (get_lock_file cfg name) (natToDecimal myPid)) := by
  unfold acquire
  simp only [h, hp, if_neg, Bool.false_eq_true, not_false_iff]

theorem acquire_pid_case (cfg : Config) (name : String) (myPid : Nat)
    (kill : Nat → KillOutcome) (die : Bool) (fs : FS) (c : String) (q : Int)
    (h : FS.read fs (get_lock_file cfg name) = some c)
    (hp : pyParseInt (pyStrip c) = some q) :
    acquire cfg name myPid kill die false fs
      = match is_pid_valid q kill with
        | .error .valueError => (.valueErr, fs)
        | .error .osError =>
          (.cannotAcquire (indetMsg (get_lock_file cfg name) einvalText), fs)
        | .ok true =>
          if die then (.exited 1 (heldMsg name q), fs)
          else (.cannotAcquire (heldMsg name q), fs)
        | .ok false =>
          (.ok, FS.write fs (get_lock_file cfg name) (natToDecimal myPid)) := by
  unfold acquire
  simp only [h, hp, if_neg, Bool.false_eq_true, not_false_iff]

/-! Fixtures for the concrete witnesses. -/

/-- Configuration in which /var/lock is a directory. -/
def cfgA : Config := ⟨true, ""⟩

/-- Kill oracle for witnesses: processes 5 and 7 exist, all others do not. -/
def killA : Nat → KillOutcome :=
  fun p => if p == 5 || p == 7 then KillOutcome.ok else KillOutcome.esrch

/-- The lockfile path used by the witnesses. -/
def lfA : String := get_lock_file cfgA "t"

/-- Filesystem holding a record owned by dead process 9. -/
def fsA : FS := [(lfA, "9")]

/-- Filesystem holding a record owned by live process 5. -/
def fsB : FS := [(lfA, "5")]

/-- Filesystem holding a record with empty content. -/
def fsC : FS := [(lfA, "")]

/-- Filesystem holding a record with content 0. -/
def fsD : FS := [(lfA, "0")]


/-- C1: the mutual-exclusion claim is right and the code violates it.
The advisory lock is taken only after open succeeds, so in the
interleaving run here process A creates the lockfile with open(x) and
is then overtaken before its lockf: process B gets FileExistsError,
opens r+, locks, reads the still-empty content, treats it as
ownerless, writes its own pid, releases and returns success; A then
locks and returns success too.  With both processes alive, both whole
acquisitions succeed — the code contradicts the claim (and its own
comment that locking first prevents a race with the reclaim block). -/
theorem C1_race_both_succeed :
    killA 5 = KillOutcome.ok ∧ killA 7 = KillOutcome.ok ∧
    (runRace killA [Turn.A, Turn.B, Turn.B, Turn.B, Turn.B, Turn.A, Turn.A]
        raceInit).procA.pc = RacePC.finished RaceResult.ok ∧
    (runRace killA [Turn.A, Turn.B, Turn.B, Turn.B, Turn.B, Turn.A, Turn.A]
        raceInit).procB.pc = RacePC.finished RaceResult.ok :=
  ⟨rfl, rfl, rfl, rfl⟩

/-- C2: when no record exists at the derived location, acquisition
succeeds (the exclusive create takes the none branch; an existing
record instead takes the FileExistsError branch, never an overwrite)
and the record content afterwards is the decimal text of the acquiring
process's own pid. -/
theorem C2_create (cfg : Config) (name : String) (myPid : Nat)
    (kill : Nat → KillOutcome) (die vanish : Bool) (fs : FS)
    (h : FS.read fs (get_lock_file cfg name) = none) :
    (acquire cfg name myPid kill die vanish fs).1 = Outcome.ok ∧
    FS.read (acquire cfg name myPid kill die vanish fs).2
      (get_lock_file cfg name) = some (natToDecimal myPid) := by
  rw [acquire_create _ _ _ _ _ _ _ h]
  exact ⟨rfl, FS.read_write_self fs _ _⟩

/-- Witness for C2: acquiring on an empty filesystem succeeds and
leaves the pid 5 as record content. -/
theorem C2_create_witness :
    FS.read ([] : FS) (get_lock_file cfgA "t") = none ∧
    ((acquire cfgA "t" 5 killA false false []).1 = Outcome.ok ∧
     FS.read (acquire cfgA "t" 5 killA false false []).2
       (get_lock_file cfgA "t") = some (natToDecimal 5)) :=
  ⟨rfl, C2_create cfgA "t" 5 killA false false [] rfl⟩

/-- C3: when the record holds the pid of a live process and die is
false, acquisition raises CannotAcquireLock with a message naming the
lock name and the holding pid, and the filesystem (hence the record
content) is unchanged. -/
theorem C3_live_owner_fails (cfg : Config) (name : String) (myPid : Nat)
    (kill : Nat → KillOutcome) (fs : FS) (c : String) (q : Int)
    (hc : FS.read fs (get_lock_file cfg name) = some c)
    (hq : pyParseInt (pyStrip c) = some q)
    (hv : is_pid_valid q kill = .ok true) :
    acquire cfg name myPid kill false false fs
      = (Outcome.cannotAcquire
          ("Another \x27" ++ (name ++ ("\x27 process is already running (pid "
            ++ (toString q ++ ").")))), fs) := by
  rw [acquire_pid_case _ _ _ _ _ _ _ _ hc hq, hv]
  rfl

/-- Witness for C3: process 7 cannot acquire the lock held by live
process 5, and the state is returned unchanged. -/
theorem C3_live_owner_fails_witness :
    FS.read fsB (get_lock_file cfgA "t") = some "5" ∧
    pyParseInt (pyStrip "5") = some 5 ∧
    is_pid_valid 5 killA = .ok true ∧
    acquire cfgA "t" 7 killA false false fsB
      = (Outcome.cannotAcquire
          ("Another \x27" ++ ("t" ++ ("\x27 process is already running (pid "
            ++ (toString (5 : Int) ++ ").")))), fsB) :=
  ⟨rfl, rfl, rfl, C3_live_owner_fails cfgA "t" 7 killA fsB "5" 5 rfl rfl rfl⟩

/-- C4: a record whose stripped content does not parse as an integer
(including empty content), or parses to the positive identifier of a
process the kill probe reports as nonexistent, is reclaimed: acquisition
succeeds with no error and the record content is replaced by exactly
the acquirer's pid. -/
theorem C4_reclaim (cfg : Config) (name : String) (myPid : Nat)
    (kill : Nat → KillOutcome) (die : Bool) (fs : FS) (c : String)
    (hc : FS.read fs (get_lock_file cfg name) = some c)
    (h : pyParseInt (pyStrip c) = none ∨
         ∃ q, pyParseInt (pyStrip c) = some q ∧ 0 < q ∧
           kill q.toNat = KillOutcome.esrch) :
    (acquire cfg name myPid kill die false fs).1 = Outcome.ok ∧
    FS.read (acquire cfg name myPid kill die false fs).2
      (get_lock_file cfg name) = some (natToDecimal myPid) := by
  rcases h with h | ⟨q, hq, hq0, hdead⟩
  · rw [acquire_parse_none _ _ _ _ _ _ _ hc h]
    exact ⟨rfl, FS.read_write_self fs _ _⟩
  · have hv : is_pid_valid q kill = .ok false := by
      unfold is_pid_valid
      rw [if_neg (by omega), hdead]
    rw [acquire_pid_case _ _ _ _ _ _ _ _ hc hq, hv]
    exact ⟨rfl, FS.read_write_self fs _ _⟩

/-- Witness for C4: a record with empty content is reclaimed by
process 5 with no parse error. -/
theorem C4_reclaim_witness :
    FS.read fsC (get_lock_file cfgA "t") = some "" ∧
    pyParseInt (pyStrip "") = none ∧
    ((acquire cfgA "t" 5 killA false false fsC).1 = Outcome.ok ∧
     FS.read (acquire cfgA "t" 5 killA false false fsC).2
       (get_lock_file cfgA "t") = some (natToDecimal 5)) :=
  ⟨rfl, rfl, C4_reclaim cfgA "t" 5 killA false fsC "" rfl (Or.inl rfl)⟩

/-- C5: when the record existed at the exclusive-create step but has
vanished before the reopen, acquisition fails with the indeterminate
CannotAcquireLock message built from the reopen OSError; that message
never equals a lock-held message (the conditions are not conflated);
and no retry happens: the lock is simply not taken (the lockfile slot
stays empty in the result). -/
theorem C5_vanished_indeterminate (cfg : Config) (name : String)
    (myPid : Nat) (kill : Nat → KillOutcome) (die : Bool) (fs : FS)
    (c : String)
    (hc : FS.read fs (get_lock_file cfg name) = some c) :
    acquire cfg name myPid kill die true fs
      = (Outcome.cannotAcquire (indetMsg (get_lock_file cfg name)
            (fnfText (get_lock_file cfg name))),
         FS.delete fs (get_lock_file cfg name)) ∧
    (∀ p, indetMsg (get_lock_file cfg name) (fnfText (get_lock_file cfg name))
        ≠ heldMsg name p) ∧
    FS.read (acquire cfg name myPid kill die true fs).2
      (get_lock_file cfg name) = none := by
  refine ⟨acquire_vanish _ _ _ _ _ _ _ hc,
          fun p => indetMsg_ne_heldMsg _ _ _ _, ?_⟩
  rw [acquire_vanish _ _ _ _ _ _ _ hc]
  exact FS.read_delete_self fs _

/-- Witness for C5: the record vanished under process 5; the acquire
fails with the indeterminate message, which differs from the held
message, and the lockfile stays absent. -/
theorem C5_vanished_indeterminate_witness :
    FS.read fsA (get_lock_file cfgA "t") = some "9" ∧
    acquire cfgA "t" 5 killA false true fsA
      = (Outcome.cannotAcquire (indetMsg (get_lock_file cfgA "t")
            (fnfText (get_lock_file cfgA "t"))),
         FS.delete fsA (get_lock_file cfgA "t")) ∧
    indetMsg (get_lock_file cfgA "t") (fnfText (get_lock_file cfgA "t"))
      ≠ heldMsg "t" 9 ∧
    FS.read (acquire cfgA "t" 5 killA false true fsA).2
      (get_lock_file cfgA "t") = none :=
  ⟨rfl,
   (C5_vanished_indeterminate cfgA "t" 5 killA false fsA "9" rfl).1,
   (C5_vanished_indeterminate cfgA "t" 5 killA false fsA "9" rfl).2.1 9,
   (C5_vanished_indeterminate cfgA "t" 5 killA false fsA "9" rfl).2.2⟩

/-- C6: is_pid_valid returns true when the probe reports delivery or
permission denied (existence regardless of permission), false exactly
when the probe affirmatively reports no such process, raises ValueError
on a nonpositive pid, and re-raises the probe failure on EINVAL. -/
theorem C6_is_pid_valid (pid : Int) (kill : Nat → KillOutcome) :
    (pid ≤ 0 → is_pid_valid pid kill = .error .valueError) ∧
    (0 < pid → kill pid.toNat = KillOutcome.ok →
      is_pid_valid pid kill = .ok true) ∧
    (0 < pid → kill pid.toNat = KillOutcome.eperm →
      is_pid_valid pid kill = .ok true) ∧
    (0 < pid → kill pid.toNat = KillOutcome.esrch →
      is_pid_valid pid kill = .ok false) ∧
    (0 < pid → kill pid.toNat = KillOutcome.einval →
      is_pid_valid pid kill = .error .osError) ∧
    (is_pid_valid pid kill = .ok false → kill pid.toNat = KillOutcome.esrch) := by
  unfold is_pid_valid
  by_cases h : pid ≤ 0
  · rw [if_pos h]
    refine ⟨fun _ => rfl,
            fun h0 _ => absurd h (by omega),
            fun h0 _ => absurd h (by omega),
            fun h0 _ => absurd h (by omega),
            fun h0 _ => absurd h (by omega),
            fun hx => absurd hx (by simp)⟩
  · rw [if_neg h]
    refine ⟨fun hle => absurd hle h, ?_, ?_, ?_, ?_, ?_⟩
    · intro _ hk; rw [hk]
    · intro _ hk; rw [hk]
    · intro _ hk; rw [hk]
    · intro _ hk; rw [hk]
    · intro hx
      cases hk : kill pid.toNat
      · rw [hk] at hx
        exact absurd hx (by simp)
      · rfl
      · rw [hk] at hx
        exact absurd hx (by simp)
      · rw [hk] at hx
        exact absurd hx (by simp)

/-- Witness for C6: pid 3 is reported nonexistent by the oracle, so
is_pid_valid returns false. -/
theorem C6_is_pid_valid_witness :
    0 < (3 : Int) ∧ killA (3 : Int).toNat = KillOutcome.esrch ∧
    is_pid_valid 3 killA = .ok false :=
  ⟨by decide, rfl,
   (C6_is_pid_valid 3 killA).2.2.2.1 (by decide) rfl⟩

theorem release_read_none (fs : FS) (p : String) :
    FS.read (release fs (some p)) p = none := by
  simp only [release, unlink]
  cases hr : FS.read fs p with
  | some c =>
    simp only [hr]
    exact FS.read_delete_self fs p
  | none =>
    simp [hr]

theorem release_of_read_none (fs : FS) (p : String)
    (h : FS.read fs p = none) : release fs (some p) = fs := by
  simp only [release, unlink, h]

/-- C7: release deletes the record at the recorded location, so a
subsequent acquisition of that name succeeds; release of a
never-acquired handle (no recorded location) does nothing; a second
release is a harmless no-op; and release is a total function into the
filesystem state: the bare except in the source swallows every
deletion failure, which the model reflects by handling the unlink
error case. -/
theorem C7_release (fs : FS) (p : String) (cfg : Config) (name : String)
    (myPid : Nat) (kill : Nat → KillOutcome) (die : Bool) :
    FS.read (release fs (some p)) p = none ∧
    release fs none = fs ∧
    release (release fs (some p)) (some p) = release fs (some p) ∧
    (acquire cfg name myPid kill die false
      (release fs (some (get_lock_file cfg name)))).1 = Outcome.ok := by
  refine ⟨release_read_none fs p, rfl,
          release_of_read_none _ _ (release_read_none fs p), ?_⟩
  rw [acquire_create _ _ _ _ _ _ _ (release_read_none fs _)]

/-- C8: with die set, a live owner makes acquire print the single held
message naming the lock and the owner pid and exit with status 1; and
the exited outcome arises on no other path: whenever acquire exits the
process, die was set, the status is 1 and the line is a held message. -/
theorem C8_die_policy (cfg : Config) (name : String) (myPid : Nat)
    (kill : Nat → KillOutcome) (fs : FS) (c : String) (q : Int)
    (hc : FS.read fs (get_lock_file cfg name) = some c)
    (hq : pyParseInt (pyStrip c) = some q)
    (hv : is_pid_valid q kill = .ok true) :
    acquire cfg name myPid kill true false fs
      = (Outcome.exited 1 (heldMsg name q), fs) ∧
    (∀ (die vanish : Bool) (fs₂ fs₃ : FS) (code : Nat) (m : String),
      acquire cfg name myPid kill die vanish fs₂ = (Outcome.exited code m, fs₃) →
      die = true ∧ code = 1 ∧ ∃ p, m = heldMsg name p) := by
  constructor
  · rw [acquire_pid_case _ _ _ _ _ _ _ _ hc hq, hv]
    rfl
  · intro die vanish fs₂ fs₃ code m hacq
    cases hr : FS.read fs₂ (get_lock_file cfg name) with
    | none =>
      rw [acquire_create _ _ _ _ _ _ _ hr] at hacq
      simp at hacq
    | some c2 =>
      cases vanish with
      | true =>
        rw [acquire_vanish _ _ _ _ _ _ _ hr] at hacq
        simp at hacq
      | false =>
        cases hp : pyParseInt (pyStrip c2) with
        | none =>
          rw [acquire_parse_none _ _ _ _ _ _ _ hr hp] at hacq
          simp at hacq
        | some q2 =>
          rw [acquire_pid_case _ _ _ _ _ _ _ _ hr hp] at hacq
          cases hv2 : is_pid_valid q2 kill with
          | error e =>
            cases e <;> simp only [hv2] at hacq <;> simp at hacq
          | ok b =>
            cases b with
            | false =>
              simp only [hv2] at hacq
              simp at hacq
            | true =>
              simp only [hv2] at hacq
              cases die with
              | false => simp at hacq
              | true =>
                simp only [if_pos, Prod.mk.injEq, Outcome.exited.injEq] at hacq
                exact ⟨rfl, hacq.1.1.symm, q2, hacq.1.2.symm⟩

/-- Witness for C8: with die set, process 7 hitting the lock of live
process 5 exits with status 1 and the held message. -/
theorem C8_die_policy_witness :
    FS.read fsB (get_lock_file cfgA "t") = some "5" ∧
    pyParseInt (pyStrip "5") = some 5 ∧
    is_pid_valid 5 killA = .ok true ∧
    acquire cfgA "t" 7 killA true false fsB
      = (Outcome.exited 1 (heldMsg "t" 5), fsB) :=
  ⟨rfl, rfl, rfl, (C8_die_policy cfgA "t" 7 killA fsB "5" 5 rfl rfl rfl).1⟩

/-- C9: get_lock_file is a function of the percent-encoded name (two
names with the same encoding map to the same location), and the
location is the /var/lock path with the namespace token and .lock
extension when /var/lock is a directory, else the temporary-directory
path with the namespace token and .pid extension. -/
theorem C9_get_lock_file (cfg : Config) (n₁ n₂ : String) :
    (quote_plus n₁ = quote_plus n₂ →
      get_lock_file cfg n₁ = get_lock_file cfg n₂) ∧
    (cfg.varLockIsDir = true →
      get_lock_file cfg n₁
        = "/var/lock/" ++ (("py_exclusivelock_" ++ quote_plus n₁) ++ ".lock")) ∧
    (cfg.varLockIsDir = false →
      get_lock_file cfg n₁
        = pathJoin cfg.tmpdir
            (("py_exclusivelock_" ++ quote_plus n₁) ++ ".pid")) := by
  refine ⟨?_, ?_, ?_⟩
  · intro h
    simp only [get_lock_file]
    rw [h]
  · intro h
    simp only [get_lock_file, h]
    rfl
  · intro h
    simp only [get_lock_file, h]
    rfl

/-- Witness for C9 at the name t with /var/lock available. -/
theorem C9_get_lock_file_witness :
    quote_plus "t" = quote_plus "t" ∧
    get_lock_file cfgA "t" = get_lock_file cfgA "t" ∧
    cfgA.varLockIsDir = true ∧
    get_lock_file cfgA "t"
      = "/var/lock/" ++ (("py_exclusivelock_" ++ quote_plus "t") ++ ".lock") :=
  ⟨rfl, (C9_get_lock_file cfgA "t" "t").1 rfl, rfl,
   (C9_get_lock_file cfgA "t" "t").2.1 rfl⟩

/-- C10: a record whose stripped content parses to a nonpositive
integer makes acquire propagate ValueError from is_pid_valid (uncaught
by the int-conversion handler and by the OSError handler): the outcome
is the ValueError, the filesystem is unchanged (no reclamation), and
neither CannotAcquireLock nor success occurs. -/
theorem C10_nonpositive_pid (cfg : Config) (name : String) (myPid : Nat)
    (kill : Nat → KillOutcome) (die : Bool) (fs : FS) (c : String) (q : Int)
    (hc : FS.read fs (get_lock_file cfg name) = some c)
    (hq : pyParseInt (pyStrip c) = some q)
    (h0 : q ≤ 0) :
    acquire cfg name myPid kill die false fs = (Outcome.valueErr, fs) ∧
    (∀ m, (acquire cfg name myPid kill die false fs).1
        ≠ Outcome.cannotAcquire m) ∧
    (acquire cfg name myPid kill die false fs).1 ≠ Outcome.ok := by
  have hv : is_pid_valid q kill = .error .valueError := by
    unfold is_pid_valid
    rw [if_pos h0]
  have hmain : acquire cfg name myPid kill die false fs
      = (Outcome.valueErr, fs) := by
    rw [acquire_pid_case _ _ _ _ _ _ _ _ hc hq, hv]
  refine ⟨hmain, ?_, ?_⟩
  · intro m
    rw [hmain]
    simp
  · rw [hmain]
    simp

/-- Witness for C10: a record containing 0 makes acquire end in the
propagated ValueError with the record intact. -/
theorem C10_nonpositive_pid_witness :
    FS.read fsD (get_lock_file cfgA "t") = some "0" ∧
    pyParseInt (pyStrip "0") = some 0 ∧
    (0 : Int) ≤ 0 ∧
    acquire cfgA "t" 5 killA false false fsD = (Outcome.valueErr, fsD) :=
  ⟨rfl, rfl, by decide,
   (C10_nonpositive_pid cfgA "t" 5 killA false fsD "0" 0 rfl rfl (by decide)).1⟩

end ExclusiveProcess
